import Mathlib

/-!
# Verification of the IoT dashboard data-loading controller

Shallow embedding of `src/iot-dashboard/src/pages/index.js` (the single
source file of the repository).  The component's React state hooks become
the fields of an explicit `State` structure; the two asynchronous
operations `fetchDevices` and `fetchDeviceData` become pure functions from
a pre-state and an abstract HTTP response to a post-state, split into a
`begin` phase (everything before the `await fetch`) and an `end` phase
(everything after), so that in-flight intermediate states can be talked
about.  Calls that an operation *triggers* (invocations of
`fetchDeviceData`) are returned explicitly rather than executed, since the
claims quantify over them.

JavaScript `undefined` is modelled by `Option`; JS truthiness of strings
(`"" ` falsy, every other string truthy) and of numbers (`0` falsy) is made
explicit in the `jsTruthy*` helpers, and `a || b` becomes the `jsOr*`
helpers.  Platform built-ins used by the component (`JSON.parse`,
`JSON.stringify(·, null, 2)`) are modelled by an executable JSON value
type with a parser and a pretty-printer; `new Date(x).toLocaleString()` is
abstracted by the `TimestampCell.localized` constructor (locale rendering
has no bearing on any claim beyond "a localized string is shown rather
than the dash").
-/

namespace IotDashboard

/-- JS truthiness of a string-or-undefined value: `undefined` and `""` are
falsy, every other string is truthy. -/
def jsTruthyStr : Option String → Bool
  | none => false
  | some s => s ≠ ""

/-- JS `a || b` on string-or-undefined values: yields `a` when `a` is
truthy, otherwise the value of `b` (whatever its own truthiness). -/
def jsOrStr (a b : Option String) : Option String :=
  if jsTruthyStr a then a else b

/-- JS string interpolation of a string-or-undefined value: `undefined`
prints as the literal text `undefined`. -/
def jsToString : Option String → String
  | none => "undefined"
  | some s => s

/-- JS `a || b` on number-or-undefined values (numbers modelled as `ℚ`,
`NaN` as `none`): `undefined`, `NaN` and `0` are falsy. -/
def jsOrNum (a : Option ℚ) (b : ℚ) : ℚ :=
  match a with
  | none => b
  | some q => if q ≠ 0 then q else b

/-- JS `a || b` on nat-or-undefined values (used for `json.count || 0`). -/
def jsOrNat (a : Option Nat) (b : Nat) : Nat :=
  match a with
  | none => b
  | some n => if n ≠ 0 then n else b

/-! ## JSON values (model of the platform `JSON` object) -/

/-- A JSON value, the model of what `JSON.parse` returns and what a JS
field can hold.  Numbers are restricted to integers, which covers every
payload the claims mention. -/
inductive JsonValue where
  | null
  | bool (b : Bool)
  | num (n : Int)
  | str (s : String)
  | arr (elems : List JsonValue)
  | obj (fields : List (String × JsonValue))

/-- JS truthiness of a JSON value: `null`, `false`, `0` and `""` are
falsy; arrays and objects are always truthy. -/
def jsonTruthy : JsonValue → Bool
  | .null => false
  | .bool b => b
  | .num n => n ≠ 0
  | .str s => s ≠ ""
  | .arr _ => true
  | .obj _ => true

/-- Characters `JSON.parse` skips between tokens. -/
def isJsonWs (c : Char) : Bool :=
  c = ' ' || c = '\n' || c = '\t' || c = '\r'

/-- Skip leading JSON whitespace. -/
def skipWs : List Char → List Char
  | [] => []
  | c :: cs => if isJsonWs c then skipWs cs else c :: cs

/-- Parse the body of a JSON string literal (the opening quote already
consumed), handling the escapes `\"`, `\\`, `\/`, `\n`, `\t`, `\r`.
Returns the string and the rest of the input past the closing quote. -/
def parseStringBody : List Char → Option (String × List Char)
  | [] => none
  | '"' :: rest => some ("", rest)
  | '\\' :: e :: rest => do
      let c ← match e with
        | '"' => some '"'
        | '\\' => some '\\'
        | '/' => some '/'
        | 'n' => some '\n'
        | 't' => some '\t'
        | 'r' => some '\r'
        | _ => none
      let (s, rest') ← parseStringBody rest
      some (String.mk (c :: s.data), rest')
  | c :: rest => do
      let (s, rest') ← parseStringBody rest
      some (String.mk (c :: s.data), rest')

/-- Parse a run of decimal digits into a natural number (with its length
in characters consumed). -/
def parseDigits : List Char → Nat → Nat × List Char
  | c :: cs, acc =>
      if c.isDigit then parseDigits cs (acc * 10 + (c.toNat - '0'.toNat))
      else (acc, c :: cs)
  | [], acc => (acc, [])

/-- Parse a JSON integer literal: optional minus sign followed by at least
one digit. -/
def parseNumber : List Char → Option (Int × List Char)
  | '-' :: c :: cs =>
      if c.isDigit then
        let (n, rest) := parseDigits (c :: cs) 0
        some (-(n : Int), rest)
      else none
  | c :: cs =>
      if c.isDigit then
        let (n, rest) := parseDigits (c :: cs) 0
        some ((n : Int), rest)
      else none
  | [] => none

/-- Does the input start with the given literal word? Returns the rest. -/
def parseLiteral (word : List Char) (input : List Char) : Option (List Char) :=
  match word, input with
  | [], rest => some rest
  | w :: ws, c :: cs => if w = c then parseLiteral ws cs else none
  | _ :: _, [] => none

mutual
/-- Recursive-descent parser for a JSON value (model of `JSON.parse`,
restricted to integer numerals).  `fuel` bounds the recursion depth. -/
def parseValue : Nat → List Char → Option (JsonValue × List Char)
  | 0, _ => none
  | fuel + 1, input =>
      match skipWs input with
      | '"' :: rest => do
          let (s, rest') ← parseStringBody rest
          some (.str s, rest')
      | '{' :: rest =>
          (match skipWs rest with
           | '}' :: rest' => some (.obj [], rest')
           | rest' => do
               let (fields, rest'') ← parseMembers fuel rest'
               some (.obj fields, rest''))
      | '[' :: rest =>
          (match skipWs rest with
           | ']' :: rest' => some (.arr [], rest')
           | rest' => do
               let (elems, rest'') ← parseElements fuel rest'
               some (.arr elems, rest''))
      | 't' :: rest => do
          let rest' ← parseLiteral ['r', 'u', 'e'] rest
          some (.bool true, rest')
      | 'f' :: rest => do
          let rest' ← parseLiteral ['a', 'l', 's', 'e'] rest
          some (.bool false, rest')
      | 'n' :: rest => do
          let rest' ← parseLiteral ['u', 'l', 'l'] rest
          some (.null, rest')
      | other => do
          let (n, rest) ← parseNumber other
          some (.num n, rest)

/-- Parse a non-empty comma-separated list of `"key": value` members. -/
def parseMembers : Nat → List Char → Option (List (String × JsonValue) × List Char)
  | 0, _ => none
  | fuel + 1, input =>
      match skipWs input with
      | '"' :: rest => do
          let (key, rest') ← parseStringBody rest
          match skipWs rest' with
          | ':' :: rest'' => do
              let (v, rest''') ← parseValue fuel rest''
              match skipWs rest''' with
              | ',' :: more => do
                  let (fields, final) ← parseMembers fuel more
                  some ((key, v) :: fields, final)
              | '}' :: final => some ([(key, v)], final)
              | _ => none
          | _ => none
      | _ => none

/-- Parse a non-empty comma-separated list of array elements. -/
def parseElements : Nat → List Char → Option (List JsonValue × List Char)
  | 0, _ => none
  | fuel + 1, input => do
      let (v, rest) ← parseValue fuel input
      match skipWs rest with
      | ',' :: more => do
          let (elems, final) ← parseElements fuel more
          some (v :: elems, final)
      | ']' :: final => some ([v], final)
      | _ => none
end

/-- `JSON.parse`: parse a complete JSON document; fails (throws, in JS) on
trailing garbage or malformed input. -/
def jsonParse (s : String) : Option JsonValue := do
  let (v, rest) ← parseValue (s.length + 1) s.data
  if skipWs rest = [] then some v else none

/-- Escape a string for inclusion in a JSON document. -/
def escapeString (s : String) : String :=
  String.join (s.data.map fun c =>
    if c = '"' then "\\\""
    else if c = '\\' then "\\\\"
    else if c = '\n' then "\\n"
    else if c = '\t' then "\\t"
    else if c = '\r' then "\\r"
    else String.mk [c])

/-- `indent`-many spaces repeated `depth` times. -/
def indentStr (indent depth : Nat) : String :=
  String.mk (List.replicate (indent * depth) ' ')

mutual
/-- Model of `JSON.stringify(v, null, indent)` at nesting depth `depth`:
every array element and object member goes on its own line, indented one
level deeper, as the platform pretty-printer does. -/
def stringifyV (indent : Nat) : JsonValue → Nat → String
  | .null, _ => "null"
  | .bool true, _ => "true"
  | .bool false, _ => "false"
  | .num n, _ => toString n
  | .str s, _ => "\"" ++ escapeString s ++ "\""
  | .arr [], _ => "[]"
  | .arr (v :: vs), depth =>
      "[\n" ++ stringifyElems indent (v :: vs) (depth + 1)
        ++ "\n" ++ indentStr indent depth ++ "]"
  | .obj [], _ => "\x7b\x7d"
  | .obj (f :: fs), depth =>
      "\x7b\n" ++ stringifyMembers indent (f :: fs) (depth + 1)
        ++ "\n" ++ indentStr indent depth ++ "\x7d"

/-- The comma-and-newline separated lines of a non-empty array body. -/
def stringifyElems (indent : Nat) : List JsonValue → Nat → String
  | [], _ => ""
  | [v], depth => indentStr indent depth ++ stringifyV indent v depth
  | v :: vs, depth =>
      indentStr indent depth ++ stringifyV indent v depth ++ ",\n"
        ++ stringifyElems indent vs depth

/-- The comma-and-newline separated lines of a non-empty object body. -/
def stringifyMembers (indent : Nat) : List (String × JsonValue) → Nat → String
  | [], _ => ""
  | [(k, v)], depth =>
      indentStr indent depth ++ "\"" ++ escapeString k ++ "\": "
        ++ stringifyV indent v depth
  | (k, v) :: fs, depth =>
      indentStr indent depth ++ "\"" ++ escapeString k ++ "\": "
        ++ stringifyV indent v depth ++ ",\n"
        ++ stringifyMembers indent fs depth
end

/-- `JSON.stringify(v, null, indent)`. -/
def jsonStringify (indent : Nat) (v : JsonValue) : String :=
  stringifyV indent v 0

/-! ## Data model -/

/-- One record of the `GET /devices` response array, with the three field
names the component probes (`d.device_name || d.device || d.deviceName`).
A field is `none` when absent from the record (JS `undefined`). -/
structure DeviceRecord where
  device_name : Option String
  device : Option String
  deviceName : Option String

/-- Name normalization of a device record, from
`data?.map((d) => d.device_name || d.device || d.deviceName)`:
JS `||` takes the first *truthy* field (absent and `""` are both falsy)
and otherwise the value of the last operand — which is `undefined` when
`deviceName` is absent. -/
def normalizeDeviceName (d : DeviceRecord) : Option String :=
  jsOrStr d.device_name (jsOrStr d.device d.deviceName)

/-- One row of the `GET /devices/{name}/data` response, as the rendering
code reads it: `topic`, `payload_json` (any JSON value, or absent),
`payload_raw`, and a timestamp under any of three field names. -/
structure Row where
  topic : Option String
  payload_json : Option JsonValue
  payload_raw : Option String
  timestamp : Option String
  created_at : Option String
  createdAt : Option String

/-- The component's React state: one field per `useState` hook. -/
structure State where
  devices : List (Option String)
  selectedDevice : Option String
  limit : ℚ
  rows : List Row
  status : String
  error : String
  loading : Bool

/-- The initial hook values:
`useState([])`, `useState("")`, `useState(50)`, `useState([])`,
`useState("Initializing…")`, `useState("")`, `useState(false)`. -/
def initialState : State :=
  { devices := []
  , selectedDevice := some ""
  , limit := 50
  , rows := []
  , status := "Initializing…"
  , error := ""
  , loading := false }

/-- An invocation of `fetchDeviceData` that an operation triggers, with
the arguments it passes. -/
structure FetchCall where
  deviceName : Option String
  limitValue : ℚ
  showLoading : Bool

/-- The body of the `GET /devices/{name}/data` success response:
`json.data` (absent modelled as `none`) and `json.count`. -/
structure DataResponse where
  data : Option (List Row)
  count : Option Nat

/-! ## Operations of the Dashboard Controller -/

/-- `fetchDevices` up to the `await fetch`: `setStatus("Loading devices…")`
then `setError("")`. -/
def fetchDevices_begin (s : State) : State :=
  { s with status := "Loading devices…", error := "" }

/-- `fetchDevices` as a function of the device-list response.
`Except.error ()` covers every path into the `catch` block: non-2xx
status (`!res.ok`), network error, `res.json()` parse error, and a body
that is neither an array nor nullish (whose `.map` throws).
`Except.ok none` is a nullish body (`data?.map(...)` is `undefined`, so
`|| []` yields `[]`); `Except.ok (some records)` is an array body.
Returns the post-state and the `fetchDeviceData` calls triggered. -/
def fetchDevices (s : State) (resp : Except Unit (Option (List DeviceRecord))) :
    State × List FetchCall :=
  let s0 := fetchDevices_begin s
  match resp with
  | .error _ =>
      ({ s0 with error := "Failed to load devices. Check API server or CORS."
               , status := "Error loading devices." }, [])
  | .ok body =>
      let deviceNames : List (Option String) :=
        match body with
        | none => []
        | some records => records.map normalizeDeviceName
      let s1 := { s0 with devices := deviceNames }
      match deviceNames with
      | [] =>
          ({ s1 with selectedDevice := some ""
                   , status := "No devices found in database." }, [])
      | first :: _ =>
          ({ s1 with selectedDevice := first
                   , status := "Devices loaded. Selected: " ++ jsToString first },
           [⟨first, s1.limit, true⟩])

/-- `fetchDeviceData` up to the `await fetch`: the `!deviceName` guard,
`if (showLoading) setLoading(true)`, `setError("")` and the loading
status.  Returns the intermediate state and the HTTP request issued
(`none` when the guard fired and no request is made). -/
def fetchDeviceData_begin (s : State) (deviceName : Option String)
    (limitValue : ℚ) (showLoading : Bool) : State × Option FetchCall :=
  if !jsTruthyStr deviceName then
    ({ s with status := "Please select a device." }, none)
  else
    ({ s with loading := if showLoading then true else s.loading
            , error := ""
            , status := "Loading data for " ++ jsToString deviceName ++ "…" },
     some ⟨deviceName, limitValue, showLoading⟩)

/-- The rest of `fetchDeviceData` once the response arrived: the success
branch (`setRows(json.data || [])` and the count status), the `catch`
branch, and the `finally` block (`if (showLoading) setLoading(false)`). -/
def fetchDeviceData_end (s : State) (deviceName : Option String)
    (showLoading : Bool) (resp : Except Unit DataResponse) : State :=
  let s1 :=
    match resp with
    | .ok json =>
        { s with rows := json.data.getD []
               , status := "Loaded " ++ toString (jsOrNat json.count 0)
                   ++ " rows for " ++ jsToString deviceName ++ "." }
    | .error _ =>
        { s with error := "Failed to load data. Check API / database."
               , status := "Error loading data." }
  { s1 with loading := if showLoading then false else s1.loading }

/-- A complete `fetchDeviceData(deviceName, limitValue, showLoading)`
call: the begin phase, and — when a request was issued — the end phase on
the response.  `Except.error ()` again covers non-2xx, network error and
JSON parse error. -/
def fetchDeviceData (s : State) (deviceName : Option String) (limitValue : ℚ)
    (showLoading : Bool) (resp : Except Unit DataResponse) : State :=
  let (s1, req) := fetchDeviceData_begin s deviceName limitValue showLoading
  match req with
  | none => s1
  | some _ => fetchDeviceData_end s1 deviceName showLoading resp

/-- The body of the 10-second interval:
`if (selectedDevice && !loading) fetchDeviceData(selectedDevice, limit, false)`.
Returns the `fetchDeviceData` calls the tick triggers. -/
def backgroundTick (s : State) : List FetchCall :=
  if jsTruthyStr s.selectedDevice && !s.loading then
    [⟨s.selectedDevice, s.limit, false⟩]
  else []

/-- The limit input's `onChange` handler:
`Math.max(1, Math.min(500, Number(e.target.value) || 1))`.
The input value is `Number(e.target.value)`: `none` models `NaN`
(non-numeric text), and the empty string coerces to `some 0`. -/
def clampLimit (input : Option ℚ) : ℚ :=
  max 1 (min 500 (jsOrNum input 1))

/-! ## Row rendering -/

/-- The timestamp cell: a dash when no timestamp field is truthy,
otherwise `new Date(createdAt).toLocaleString()` — the locale rendering is
abstracted as a constructor holding the raw timestamp it localizes. -/
inductive TimestampCell where
  | dash
  | localized (raw : String)

/-- The payload normalization at the top of the row renderer:
`let payloadJson = row.payload_json; try { if string, JSON.parse } catch {}`.
A parse failure is swallowed and the raw string kept. -/
def normalizePayload : Option JsonValue → Option JsonValue
  | some (.str s) =>
      match jsonParse s with
      | some v => some v
      | none => some (.str s)
  | other => other

/-- One rendered table row (the data cells of the `<tr>`). -/
structure RenderedRow where
  indexCell : Nat
  topicCell : Option String
  payloadValue : Option JsonValue
  payloadCell : String
  rawCell : String
  timestampCell : TimestampCell

/-- The `rows.map((row, index) => ...)` body: payload normalization, the
timestamp fallback chain `row.timestamp || row.created_at || row.createdAt`,
and the cell contents (`payloadJson ? JSON.stringify(payloadJson, null, 2)
: "-"`, `row.payload_raw || "-"`, localized time or `"-"`). -/
def renderRow (row : Row) (index : Nat) : RenderedRow :=
  let payloadJson := normalizePayload row.payload_json
  let createdAt := jsOrStr row.timestamp (jsOrStr row.created_at row.createdAt)
  { indexCell := index + 1
  , topicCell := row.topic
  , payloadValue := payloadJson
  , payloadCell :=
      match payloadJson with
      | some v => if jsonTruthy v then jsonStringify 2 v else "-"
      | none => "-"
  , rawCell :=
      match jsOrStr row.payload_raw (some "-") with
      | some s => s
      | none => "-"
  , timestampCell :=
      if jsTruthyStr createdAt then .localized (jsToString createdAt)
      else .dash }

/-! ## Concrete sample data used by counterexamples and witnesses -/

/-- The reading of testable property 6 of the specification:
`{topic:"t1", payload_json:"\x7b\"a\":1\x7d", timestamp:"2024-01-01T00:00:00Z"}`. -/
def sampleRow : Row :=
  { topic := some "t1"
  , payload_json := some (.str "\x7b\"a\":1\x7d")
  , payload_raw := none
  , timestamp := some "2024-01-01T00:00:00Z"
  , created_at := none
  , createdAt := none }

/-- The data response of testable property 6: `{data:[sampleRow], count:1}`. -/
def sampleDataResponse : DataResponse :=
  { data := some [sampleRow], count := some 1 }

/-- A device record carrying its name under `device_name`. -/
def sampleDeviceRecord : DeviceRecord :=
  { device_name := some "dev1", device := none, deviceName := none }

end IotDashboard

namespace IotDashboard

/-! ## Claims -/

/-- C1 (counterexample): on an empty device-list response the operation
does NOT clear the reading list — starting from a state whose reading
list holds one row, the row is still there afterwards. -/
theorem c1_rows_not_cleared_cex :
    (fetchDevices { initialState with rows := [sampleRow] }
        (.ok (some []))).1.rows ≠ []
    ∧ (fetchDevices { initialState with rows := [sampleRow] }
        (.ok (some []))).1.rows = [sampleRow] :=
  ⟨by simp [fetchDevices, fetchDevices_begin, initialState], rfl⟩

/-- C1 (amended): for every device-list response that is an empty array,
the list-devices operation sets the selected device to the empty string,
sets the status to the 'no devices' message, triggers no data fetch, and
leaves the reading list unchanged (it does not clear it; the reading list
is empty after the operation only because the operation's one call site,
at startup, runs with an empty reading list). -/
theorem c1_empty_device_list (s : State) :
    (fetchDevices s (.ok (some []))).1.selectedDevice = some ""
    ∧ (fetchDevices s (.ok (some []))).1.status = "No devices found in database."
    ∧ (fetchDevices s (.ok (some []))).1.devices = []
    ∧ (fetchDevices s (.ok (some []))).1.rows = s.rows
    ∧ (fetchDevices s (.ok (some []))).2 = [] := by
  simp [fetchDevices, fetchDevices_begin]

/-- C2 (counterexample): a failing device-list request does NOT empty the
reading list — starting from a state whose reading list holds one row,
the row is still there afterwards. -/
theorem c2_rows_not_emptied_cex :
    (fetchDevices { initialState with rows := [sampleRow] } (.error ())).1.rows ≠ []
    ∧ (fetchDevices { initialState with rows := [sampleRow] }
        (.error ())).1.rows = [sampleRow] :=
  ⟨by simp [fetchDevices, fetchDevices_begin, initialState], rfl⟩

/-- C2 (amended): for every failing device-list request (non-2xx,
network error, or JSON parse error), the list-devices operation leaves
the device list unchanged (hence still empty at its one call site, at
startup, where the device list is empty) and leaves the reading list
unchanged rather than emptying it, sets a non-empty error message, sets
the status to the generic load-error string, and triggers no data fetch. -/
theorem c2_device_list_failure (s : State) :
    (fetchDevices s (.error ())).1.devices = s.devices
    ∧ (fetchDevices s (.error ())).1.rows = s.rows
    ∧ (fetchDevices s (.error ())).1.error
        = "Failed to load devices. Check API server or CORS."
    ∧ (fetchDevices s (.error ())).1.error ≠ ""
    ∧ (fetchDevices s (.error ())).1.status = "Error loading devices."
    ∧ (fetchDevices s (.error ())).2 = [] :=
  ⟨rfl, rfl, rfl,
   (by decide :
     ("Failed to load devices. Check API server or CORS." : String) ≠ ""),
   rfl, rfl⟩

/-- C3: for every failing fetch-device-data call with a truthy (non-empty)
device name, the reading list is left exactly as before the call, the
error message is set to a non-empty string, and the status is set to the
generic data-error string. -/
theorem c3_data_failure_keeps_rows (s : State) (name : Option String)
    (limitValue : ℚ) (showLoading : Bool) (h : jsTruthyStr name = true) :
    (fetchDeviceData s name limitValue showLoading (.error ())).rows = s.rows
    ∧ (fetchDeviceData s name limitValue showLoading (.error ())).error
        = "Failed to load data. Check API / database."
    ∧ (fetchDeviceData s name limitValue showLoading (.error ())).error ≠ ""
    ∧ (fetchDeviceData s name limitValue showLoading (.error ())).status
        = "Error loading data." := by
  simp [fetchDeviceData, fetchDeviceData_begin, fetchDeviceData_end, h]

/-- C3 (witness): the failure path evaluated at a concrete state and
device name. -/
theorem c3_data_failure_keeps_rows_witness :
    (fetchDeviceData initialState (some "dev1") 50 true (.error ())).rows
      = initialState.rows
    ∧ (fetchDeviceData initialState (some "dev1") 50 true (.error ())).error ≠ "" :=
  ⟨(c3_data_failure_keeps_rows initialState (some "dev1") 50 true (by decide)).1,
   (c3_data_failure_keeps_rows initialState (some "dev1") 50 true (by decide)).2.2.1⟩

/-- C4: for every device-list response whose records normalize to a
non-empty name list, the list-devices operation selects the first name
and triggers exactly one fetch-device-data call, for that name with the
current limit and with the loading indicator shown (showLoading = true). -/
theorem c4_nonempty_selects_first (s : State) (records : List DeviceRecord)
    (first : Option String) (rest : List (Option String))
    (h : records.map normalizeDeviceName = first :: rest) :
    (fetchDevices s (.ok (some records))).1.selectedDevice = first
    ∧ (fetchDevices s (.ok (some records))).1.status
        = "Devices loaded. Selected: " ++ jsToString first
    ∧ (fetchDevices s (.ok (some records))).2 = [⟨first, s.limit, true⟩] := by
  simp [fetchDevices, fetchDevices_begin, h]

/-- C4 (witness): a one-record response selects `dev1` and triggers the
single call `fetchDeviceData("dev1", 50, true)`. -/
theorem c4_nonempty_selects_first_witness :
    (fetchDevices initialState (.ok (some [sampleDeviceRecord]))).1.selectedDevice
      = some "dev1"
    ∧ (fetchDevices initialState (.ok (some [sampleDeviceRecord]))).2
      = [⟨some "dev1", 50, true⟩] :=
  ⟨(c4_nonempty_selects_first initialState [sampleDeviceRecord]
      (some "dev1") [] rfl).1,
   (c4_nonempty_selects_first initialState [sampleDeviceRecord]
      (some "dev1") [] rfl).2.2⟩

/-- C5: for every controller state, a background tick triggers no fetch
when the loading flag is true or no device is selected, and triggers
exactly one fetch-device-data call for the selected device with the
current limit and showLoading = false (the silent form) when the loading
flag is false and a device is selected. -/
theorem c5_background_tick (s : State) :
    ((s.loading = true ∨ jsTruthyStr s.selectedDevice = false) →
        backgroundTick s = [])
    ∧ ((s.loading = false ∧ jsTruthyStr s.selectedDevice = true) →
        backgroundTick s = [⟨s.selectedDevice, s.limit, false⟩]) := by
  constructor
  · rintro (h | h) <;> simp [backgroundTick, h]
  · rintro ⟨h1, h2⟩
    simp [backgroundTick, h1, h2]

/-- C5 (witness): the two branches evaluated at concrete states — one
with the loading flag set, one idle with device `dev1` selected. -/
theorem c5_background_tick_witness :
    backgroundTick { initialState with loading := true } = []
    ∧ backgroundTick { initialState with selectedDevice := some "dev1" }
      = [⟨some "dev1", 50, false⟩] :=
  ⟨(c5_background_tick { initialState with loading := true }).1 (Or.inl rfl),
   (c5_background_tick { initialState with selectedDevice := some "dev1" }).2
     ⟨rfl, by decide⟩⟩

/-- C6: for every fetch-device-data call with a truthy (non-empty) device
name, the loading flag right after the begin phase is true exactly when
showLoading is true (and otherwise keeps its prior value), and after the
complete call (success or failure) it is false exactly when showLoading
is true (and otherwise keeps its prior value) — so a showLoading = false
call never changes the flag, and a completed showLoading = true call
leaves it false. -/
theorem c6_loading_flag (s : State) (name : Option String) (limitValue : ℚ)
    (showLoading : Bool) (resp : Except Unit DataResponse)
    (h : jsTruthyStr name = true) :
    (fetchDeviceData_begin s name limitValue showLoading).1.loading
      = (if showLoading then true else s.loading)
    ∧ (fetchDeviceData s name limitValue showLoading resp).loading
      = (if showLoading then false else s.loading) := by
  cases showLoading <;> cases resp <;>
    simp [fetchDeviceData, fetchDeviceData_begin, fetchDeviceData_end, h]

/-- C6 (witness): a silent (showLoading = false) successful call at a
concrete state leaves the loading flag false, and a shown call sets it
during the begin phase. -/
theorem c6_loading_flag_witness :
    (fetchDeviceData initialState (some "dev1") 50 false
        (.ok sampleDataResponse)).loading = false
    ∧ (fetchDeviceData_begin initialState (some "dev1") 50 true).1.loading
      = true :=
  ⟨(c6_loading_flag initialState (some "dev1") 50 false
      (.ok sampleDataResponse) (by decide)).2,
   (c6_loading_flag initialState (some "dev1") 50 true
      (.ok sampleDataResponse) (by decide)).1⟩

/-- C7: the change-limit handler always stores a value in [1,500]: a
numeric input above 500 is stored as 500, a numeric input below 1 as 1,
a non-numeric input (NaN) as 1, and the empty string (which `Number`
coerces to 0) as 1; the initial limit 50 is in range as well. -/
theorem c7_limit_clamped (input : Option ℚ) :
    1 ≤ clampLimit input ∧ clampLimit input ≤ 500
    ∧ (∀ q : ℚ, input = some q → 500 < q → clampLimit input = 500)
    ∧ (∀ q : ℚ, input = some q → q < 1 → clampLimit input = 1)
    ∧ (input = none → clampLimit input = 1)
    ∧ clampLimit (some 0) = 1
    ∧ 1 ≤ initialState.limit ∧ initialState.limit ≤ 500 := by
  refine ⟨le_max_left _ _, max_le (by norm_num) (min_le_left _ _), ?_, ?_, ?_, ?_, ?_, ?_⟩
  · rintro q rfl hq
    have hq0 : q ≠ 0 := by positivity
    simp only [clampLimit, jsOrNum, if_pos hq0]
    rw [min_eq_left hq.le, max_eq_right (by norm_num)]
  · rintro q rfl hq
    by_cases hq0 : q = 0
    · simp [clampLimit, jsOrNum, hq0]
    · simp only [clampLimit, jsOrNum, if_pos hq0]
      rw [min_eq_right (by linarith), max_eq_left hq.le]
  · rintro rfl
    simp [clampLimit, jsOrNum]
  · norm_num [clampLimit, jsOrNum]
  · norm_num [initialState]
  · norm_num [initialState]

/-- C7 (witness): the clamp evaluated at 501, -3, NaN and 0. -/
theorem c7_limit_clamped_witness :
    clampLimit (some 501) = 500 ∧ clampLimit (some (-3)) = 1
    ∧ clampLimit none = 1 ∧ clampLimit (some 0) = 1 :=
  ⟨(c7_limit_clamped (some 501)).2.2.1 501 rfl (by norm_num),
   (c7_limit_clamped (some (-3))).2.2.2.1 (-3) rfl (by norm_num),
   (c7_limit_clamped none).2.2.2.2.1 rfl,
   (c7_limit_clamped none).2.2.2.2.2.1⟩

/-- C8 (counterexample): a record with none of the three fields
normalizes to `undefined` — not to the raw record, and not to a defined
name; and a record whose `device_name` is present but empty is skipped in
favour of the later truthy field, so the rule is first-truthy, not
first-present. -/
theorem c8_undefined_name_cex :
    normalizeDeviceName ⟨none, none, none⟩ = none
    ∧ normalizeDeviceName ⟨some "", some "x", none⟩ = some "x" :=
  ⟨rfl, rfl⟩

/-- C8 (amended): the normalized device name is the first truthy
(present and non-empty) of the fields `device_name`, `device`,
`deviceName`; when the first two are falsy the result is the raw value of
`deviceName` — which is `undefined` when that field is absent, so a
record need not yield a defined name. -/
theorem c8_name_normalization (d : DeviceRecord) :
    (jsTruthyStr d.device_name = true → normalizeDeviceName d = d.device_name)
    ∧ (jsTruthyStr d.device_name = false → jsTruthyStr d.device = true →
        normalizeDeviceName d = d.device)
    ∧ (jsTruthyStr d.device_name = false → jsTruthyStr d.device = false →
        normalizeDeviceName d = d.deviceName) := by
  refine ⟨fun h1 => ?_, fun h1 h2 => ?_, fun h1 h2 => ?_⟩ <;>
    simp [normalizeDeviceName, jsOrStr, h1]
  · simp [h2]
  · simp [h2]

/-- C8 (witness): the three fallback tiers evaluated on concrete
records. -/
theorem c8_name_normalization_witness :
    normalizeDeviceName ⟨some "a", some "b", some "c"⟩ = some "a"
    ∧ normalizeDeviceName ⟨none, some "b", some "c"⟩ = some "b"
    ∧ normalizeDeviceName ⟨none, none, some "c"⟩ = some "c" :=
  ⟨(c8_name_normalization ⟨some "a", some "b", some "c"⟩).1 (by decide),
   (c8_name_normalization ⟨none, some "b", some "c"⟩).2.1 (by decide) (by decide),
   (c8_name_normalization ⟨none, none, some "c"⟩).2.2 (by decide) (by decide)⟩

/-- C9: for the data response `{data:[{topic:"t1",
payload_json:"\x7b\"a\":1\x7d", timestamp:"2024-01-01T00:00:00Z"}], count:1}`,
the stored row set has exactly the one row, its rendered payload parses
to the object `\x7ba:1\x7d`, its timestamp cell is the localized rendering of the
timestamp rather than the dash, and re-serializing the parsed payload
with `JSON.stringify(·, null, 2)` parses back to the same JSON value. -/
theorem c9_payload_roundtrip :
    (fetchDeviceData initialState (some "dev1") 50 true
        (.ok sampleDataResponse)).rows = [sampleRow]
    ∧ (renderRow sampleRow 0).payloadValue = some (.obj [("a", .num 1)])
    ∧ (renderRow sampleRow 0).timestampCell
      = .localized "2024-01-01T00:00:00Z"
    ∧ jsonParse (jsonStringify 2 (.obj [("a", .num 1)]))
      = some (.obj [("a", .num 1)]) :=
  ⟨rfl, rfl, rfl, rfl⟩

/-- C10: both operations clear the error message before issuing their
HTTP request — the list-devices begin phase sets it to the empty string,
and the fetch-device-data begin phase sets it to the empty string for
every truthy device name regardless of showLoading (including the silent
background form); moreover a successful fetch-device-data call leaves the
error empty, so the error is non-empty only if the most recently started
fetch failed. -/
theorem c10_error_reset (s : State) (name : Option String) (limitValue : ℚ)
    (showLoading : Bool) (h : jsTruthyStr name = true) :
    (fetchDevices_begin s).error = ""
    ∧ (fetchDeviceData_begin s name limitValue showLoading).1.error = ""
    ∧ (∀ json : DataResponse,
        (fetchDeviceData s name limitValue showLoading (.ok json)).error = "") := by
  refine ⟨rfl, ?_, ?_⟩
  · simp [fetchDeviceData_begin, h]
  · intro json
    simp [fetchDeviceData, fetchDeviceData_begin, fetchDeviceData_end, h]

/-- C10 (witness): the error slot evaluated at a concrete state carrying
a stale error message: both begin phases clear it, also in the silent
form. -/
theorem c10_error_reset_witness :
    (fetchDevices_begin { initialState with error := "old" }).error = ""
    ∧ (fetchDeviceData_begin { initialState with error := "old" }
        (some "dev1") 50 false).1.error = "" :=
  ⟨(c10_error_reset { initialState with error := "old" }
      (some "dev1") 50 false (by decide)).1,
   (c10_error_reset { initialState with error := "old" }
      (some "dev1") 50 false (by decide)).2.1⟩

end IotDashboard
